import Mathlib

/-!
Verification of the `App` component of `src/frontend/src/App.js` (code-coffee).

The component owns four pieces of React state and five event handlers.  Each
handler is embedded as a pure Lean function on an explicit `UIState` record;
the outcome of each backend call (`axios.get` / `axios.post` inside
`try`/`catch`) is passed in as an `Except Unit _` value, `Except.ok` being the
resolved response data and `Except.error` the caught exception.  Price-history
entries are opaque to the client, so the state is parameterized by their
type `α`.
-/

namespace CodeCoffee

/-- The four `useState` variables of the `App` component (App.js lines 37-40).
`α` is the backend-owned, client-opaque shape of one price-history entry. -/
structure UIState (α : Type) where
  showPriceHistory : Bool
  priceHistory : List α
  searchTexts : List String
  newSearchText : String
deriving Repr, DecidableEq

variable {α : Type}

/-- The initial state on mount: `useState(false)`, `useState([])`,
`useState([])`, `useState("")` (App.js lines 37-40). -/
def initApp : UIState α :=
  { showPriceHistory := false
    priceHistory := []
    searchTexts := []
    newSearchText := "" }

/-- `fetchUniqueSearchTexts` (App.js lines 52-60): on a resolved
`GET /unique_search_texts` it runs `setSearchTexts(data)`; on a caught error it
only logs (`console.error`) and changes no state. -/
def fetchUniqueSearchTexts (result : Except Unit (List String))
    (s : UIState α) : UIState α :=
  match result with
  | Except.ok data => { s with searchTexts := data }
  | Except.error _ => s

/-- `handleSearchTextClick` (App.js lines 62-74): on a resolved
`GET /results?search_text={searchText}` it runs `setPriceHistory(data)` and
`setShowPriceHistory(true)`; on a caught error it only logs and changes no
state.  The clicked `searchText` is used only to build the request URL. -/
def handleSearchTextClick (searchText : String)
    (result : Except Unit (List α)) (s : UIState α) : UIState α :=
  match searchText, result with
  | _, Except.ok data => { s with priceHistory := data, showPriceHistory := true }
  | _, Except.error _ => s

/-- `handlePriceHistoryClose` (App.js lines 76-79): `setShowPriceHistory(false)`
then `setPriceHistory([])`.  No backend call, no error path. -/
def handlePriceHistoryClose (s : UIState α) : UIState α :=
  { s with showPriceHistory := false, priceHistory := [] }

/-- `handleNewSearchTextChange` (App.js lines 81-83):
`setNewSearchText(event.target.value)`. -/
def handleNewSearchTextChange (value : String) (s : UIState α) : UIState α :=
  { s with newSearchText := value }

/-- `handleNewSearchTextSubmit` (App.js lines 85-99): on a resolved
`POST /start-scraper` it alerts, runs
`setSearchTexts([...searchTexts, newSearchText])` and `setNewSearchText("")`;
on a caught error it only alerts and changes no state. -/
def handleNewSearchTextSubmit (result : Except Unit Unit)
    (s : UIState α) : UIState α :=
  match result with
  | Except.ok _ =>
      { s with searchTexts := s.searchTexts ++ [s.newSearchText]
               newSearchText := "" }
  | Except.error _ => s

/-- One completed UI operation together with the outcome of its backend call
(when it has one).  These are the five operations of the spec: LoadSearchTerms,
SelectSearchTerm, ClosePriceHistory, EditNewSearchText, SubmitNewSearchText. -/
inductive Event (α : Type) where
  | load (result : Except Unit (List String))
  | select (searchText : String) (result : Except Unit (List α))
  | close
  | edit (value : String)
  | submit (result : Except Unit Unit)
deriving Repr

/-- Dispatch one completed event to the corresponding App.js handler. -/
def step (e : Event α) (s : UIState α) : UIState α :=
  match e with
  | Event.load r => fetchUniqueSearchTexts r s
  | Event.select t r => handleSearchTextClick t r s
  | Event.close => handlePriceHistoryClose s
  | Event.edit v => handleNewSearchTextChange v s
  | Event.submit r => handleNewSearchTextSubmit r s

/-- The state after a trace of completed events, listed most recent first,
starting from the mount-time state `initApp`. -/
def run : List (Event α) → UIState α
  | [] => initApp
  | e :: es => step e (run es)

/-- The payload of the most recent successful history fetch in a trace
(most recent event first), if any. -/
def lastSuccessfulFetch : List (Event α) → Option (List α)
  | [] => none
  | e :: es =>
    match e with
    | Event.select _ (Except.ok data) => some data
    | _ => lastSuccessfulFetch es

end CodeCoffee

namespace CodeCoffee

/-- C1: a successful `SubmitNewSearchText` clears `newSearchText` and replaces
`searchTexts` with the old list plus exactly one new element — the pre-submit
`newSearchText` — appended at the end; `showPriceHistory` and `priceHistory`
are untouched. -/
theorem submit_success_appends_and_clears {α : Type} (s : UIState α) :
    (handleNewSearchTextSubmit (Except.ok ()) s).newSearchText = "" ∧
    (handleNewSearchTextSubmit (Except.ok ()) s).searchTexts =
      s.searchTexts ++ [s.newSearchText] ∧
    (handleNewSearchTextSubmit (Except.ok ()) s).showPriceHistory =
      s.showPriceHistory ∧
    (handleNewSearchTextSubmit (Except.ok ()) s).priceHistory =
      s.priceHistory := by
  simp [handleNewSearchTextSubmit]

/-- C2: a failed `SubmitNewSearchText` leaves the whole state — in particular
`searchTexts` and `newSearchText` — exactly at its pre-submit value. -/
theorem submit_failure_is_noop {α : Type} (s : UIState α) (e : Unit) :
    handleNewSearchTextSubmit (Except.error e) s = s ∧
    (handleNewSearchTextSubmit (Except.error e) s).searchTexts =
      s.searchTexts ∧
    (handleNewSearchTextSubmit (Except.error e) s).newSearchText =
      s.newSearchText := by
  simp [handleNewSearchTextSubmit]

/-- C3: a successful `SelectSearchTerm` replaces `priceHistory` wholesale with
the returned payload and sets `showPriceHistory` to true in one state update;
a failed one leaves the entire state unchanged (the panel does not open). -/
theorem select_success_atomic_failure_noop {α : Type} (s : UIState α)
    (t : String) (d : List α) (e : Unit) :
    handleSearchTextClick t (Except.ok d) s =
      { s with priceHistory := d, showPriceHistory := true } ∧
    handleSearchTextClick t (Except.error e) s = s := by
  simp [handleSearchTextClick]

/-- C4: `ClosePriceHistory` is a pure local transition: from any prior state it
sets `showPriceHistory` to false and `priceHistory` to `[]`, leaving the other
two fields unchanged. -/
theorem close_resets_panel {α : Type} (s : UIState α) :
    handlePriceHistoryClose s =
      { s with showPriceHistory := false, priceHistory := [] } ∧
    (handlePriceHistoryClose s).showPriceHistory = false ∧
    (handlePriceHistoryClose s).priceHistory = [] := by
  simp [handlePriceHistoryClose]

/-- C5: a successful `LoadSearchTerms` replaces `searchTexts` entirely with the
returned sequence, in the order received; a failed one leaves the whole state,
in particular `searchTexts`, unchanged. -/
theorem load_replaces_or_keeps {α : Type} (s : UIState α)
    (data : List String) (e : Unit) :
    fetchUniqueSearchTexts (Except.ok data) s =
      { s with searchTexts := data } ∧
    fetchUniqueSearchTexts (Except.error e) s = s := by
  simp [fetchUniqueSearchTexts]

/-- C6: the history panel's transition relation over Closed/Open
(`showPriceHistory` false/true): a successful `SelectSearchTerm` always lands
in Open with the new payload (so Closed goes to Open and Open stays Open while
replacing content), `ClosePriceHistory` always lands in Closed, and a failed
`SelectSearchTerm` causes no transition from either state. -/
theorem history_panel_transitions {α : Type} (s : UIState α)
    (t : String) (d : List α) (e : Unit) :
    (handleSearchTextClick t (Except.ok d) s).showPriceHistory = true ∧
    (handleSearchTextClick t (Except.ok d) s).priceHistory = d ∧
    (handlePriceHistoryClose s).showPriceHistory = false ∧
    handleSearchTextClick t (Except.error e) s = s := by
  simp [handleSearchTextClick, handlePriceHistoryClose]

/-- C7: in every state reachable from `initApp` by a trace of the five
operations, an open panel shows exactly the payload of the most recent
successful history fetch, and a closed panel always has empty `priceHistory`
(no reachable partial-close state). -/
theorem run_panel_invariant {α : Type} (trace : List (Event α)) :
    ((run trace).showPriceHistory = true →
      lastSuccessfulFetch trace = some (run trace).priceHistory) ∧
    ((run trace).showPriceHistory = false →
      (run trace).priceHistory = []) := by
  induction trace with
  | nil => simp [run, initApp, lastSuccessfulFetch]
  | cons e es ih =>
    cases e with
    | load r =>
      cases r <;>
        simpa [run, step, fetchUniqueSearchTexts, lastSuccessfulFetch] using ih
    | select t r =>
      cases r with
      | ok d => simp [run, step, handleSearchTextClick, lastSuccessfulFetch]
      | error u =>
        simpa [run, step, handleSearchTextClick, lastSuccessfulFetch] using ih
    | close =>
      simp [run, step, handlePriceHistoryClose, lastSuccessfulFetch, ih]
    | edit v =>
      simpa [run, step, handleNewSearchTextChange, lastSuccessfulFetch] using ih
    | submit r =>
      cases r <;>
        simpa [run, step, handleNewSearchTextSubmit, lastSuccessfulFetch]
          using ih

/-- C8: `SubmitNewSearchText` does no de-duplication: if the submitted text is
already present in `searchTexts`, a successful submission makes it occur at
least twice. -/
theorem submit_no_dedup {α : Type} (s : UIState α) (t : String)
    (hmem : t ∈ s.searchTexts) (hcur : s.newSearchText = t) :
    2 ≤ (handleNewSearchTextSubmit (Except.ok ()) s).searchTexts.count t := by
  have hpos : 1 ≤ s.searchTexts.count t := List.count_pos_iff.mpr hmem
  have hcount :
      (handleNewSearchTextSubmit (Except.ok ()) s).searchTexts.count t =
        s.searchTexts.count t + 1 := by
    simp [handleNewSearchTextSubmit, List.count_append, hcur]
  omega

/-- Witness for C8: submitting "mug" when `searchTexts` already holds "mug"
yields two copies. -/
theorem submit_no_dedup_witness :
    2 ≤ (handleNewSearchTextSubmit (Except.ok ())
          ({ showPriceHistory := false, priceHistory := ([] : List Nat),
             searchTexts := ["mug"], newSearchText := "mug" }
            : UIState Nat)).searchTexts.count "mug" :=
  submit_no_dedup _ "mug" (by decide) rfl

/-- C9: every caught backend failure — in `LoadSearchTerms`,
`SelectSearchTerm`, and `SubmitNewSearchText` — leaves the entire state
unchanged: no field, related or not, is modified, and each handler is a total
function (no error escapes it). -/
theorem failures_are_isolated {α : Type} (s : UIState α) (t : String)
    (e1 e2 e3 : Unit) :
    fetchUniqueSearchTexts (Except.error e1) s = s ∧
    handleSearchTextClick t (Except.error e2) s = s ∧
    handleNewSearchTextSubmit (Except.error e3) s = s := by
  simp [fetchUniqueSearchTexts, handleSearchTextClick,
        handleNewSearchTextSubmit]

/-- C10: a successful `SelectSearchTerm` whose payload is the empty sequence
still opens the panel with `priceHistory = []`, and such a state is reachable
from `initApp` in one step. -/
theorem select_empty_payload_opens {α : Type} (s : UIState α) (t : String) :
    ((handleSearchTextClick t (Except.ok ([] : List α)) s).showPriceHistory
        = true ∧
      (handleSearchTextClick t (Except.ok ([] : List α)) s).priceHistory
        = []) ∧
    ((run [Event.select "kettle" (Except.ok ([] : List Nat))]).showPriceHistory
        = true ∧
      (run [Event.select "kettle"
          (Except.ok ([] : List Nat))]).priceHistory = []) := by
  simp [handleSearchTextClick, run, step, initApp]

end CodeCoffee
